import Mathlib

/-!
Verification of `keyword_formatter.py`: a script that reads two files,
splits each on whitespace, and prints two labeled blocks of quoted
string entries followed by an instructional line.
-/

namespace KeywordFormatter

/-- The whitespace characters Python's `str.split()` (no argument) splits
on, restricted to the ASCII range relevant here: space, tab, newline,
carriage return, vertical tab, form feed. -/
def isPySpace (c : Char) : Bool :=
  c = ' ' || c = '\t' || c = '\n' || c = '\r' || c = '\x0b' || c = '\x0c'

/-- Accumulator-based whitespace splitting, mirroring how `str.split()`
scans the string: `acc` holds the current word's characters in reverse. -/
def splitAux (s acc : List Char) : List (List Char) :=
  match s with
  | [] => if acc = [] then [] else [acc.reverse]
  | c :: rest =>
    if isPySpace c then
      (if acc = [] then [] else [acc.reverse]) ++ splitAux rest []
    else splitAux rest (c :: acc)

/-- Python's `str.split()` with no separator: split on runs of whitespace,
discarding empty tokens. Embeds `primary_file.read().split()`. -/
def pySplit (s : List Char) : List (List Char) :=
  splitAux s []

/-- `split()` lifted to `String`, yielding the word list of a file's
contents. -/
def pySplitStr (s : String) : List String :=
  (pySplit s.data).map (fun cs => String.mk cs)

/-- One per-word output line: the Python
`print(f'\t"{word}".to_string(),')` without the trailing newline. -/
def formatLine (w : String) : String :=
  "\t\"" ++ w ++ "\".to_string(),"

/-- The final instructional line printed by the script. -/
def finalLine : String :=
  "You can now add the keywords to the src/filetype.rs folder."

/-- One output block: the opening marker line, one formatted line per
word, and the closing `],` line. -/
def blockLines (opening : String) (ws : List String) : List String :=
  opening :: (ws.map formatLine ++ ["],"])

/-- All lines the script prints on a successful run, given the two file
contents (lines 12-22 of the source). -/
def outputLines (c1 c2 : String) : List String :=
  blockLines "primary_keywords: vec![" (pySplitStr c1)
    ++ blockLines "secondary_keywords: vec![" (pySplitStr c2)
    ++ [finalLine]

/-- The ways the script can fail: an out-of-range `sys.argv` access
(IndexError) or a failed `open` (OSError). -/
inductive RunError
  | indexError
  | ioError
deriving DecidableEq, Repr

/-- A model filesystem: an association list from paths to file contents;
a missing path means `open` fails. -/
def readFile (fs : List (String × String)) (p : String) : Option String :=
  (fs.find? (fun e => e.1 == p)).map (fun e => e.2)

/-- The whole program `main()`: evaluate `sys.argv[1]`, open and read the
primary file, evaluate `sys.argv[2]`, open and read the secondary file,
then print. Returns the lines written to stdout before termination and
the error, if any. The evaluation order matches the source: both files
are read before any printing happens. -/
def run (argv : List String) (fs : List (String × String)) :
    List String × Option RunError :=
  match argv.get? 1 with
  | none => ([], some .indexError)
  | some p1 =>
    match readFile fs p1 with
    | none => ([], some .ioError)
    | some c1 =>
      match argv.get? 2 with
      | none => ([], some .indexError)
      | some p2 =>
        match readFile fs p2 with
        | none => ([], some .ioError)
        | some c2 => (outputLines c1 c2, none)

/-- Helper: dropping a prefix never lengthens a list. -/
theorem dropWhile_length_le (p : Char → Bool) (l : List Char) :
    (l.dropWhile p).length ≤ l.length := by
  induction l with
  | nil => simp [List.dropWhile]
  | cons c rest ih =>
    by_cases h : p c
    · simp only [List.dropWhile, h, List.length_cons]
      omega
    · simp [List.dropWhile, h]

/-- Tokenization as the spec words it: skip leading whitespace, then the
next token is the maximal run of non-whitespace characters, and so on.
Stated independently of the accumulator implementation, for comparison. -/
def specTokenize : List Char → List (List Char)
  | [] => []
  | c :: s =>
    if isPySpace c then specTokenize s
    else (c :: s.takeWhile (fun d => !isPySpace d)) ::
      specTokenize (s.dropWhile (fun d => !isPySpace d))
termination_by l => l.length
decreasing_by
  all_goals simp only [List.length_cons]
  · omega
  · have := dropWhile_length_le (fun d => !isPySpace d) rest
    omega

/-! ## Helper lemmas -/

/-- Characterization of `splitAux` with a nonempty accumulator: the
pending word is completed by the next run of non-whitespace characters. -/
theorem splitAux_acc_ne (s : List Char) : ∀ acc : List Char, acc ≠ [] →
    splitAux s acc =
      (acc.reverse ++ s.takeWhile (fun d => !isPySpace d)) ::
        splitAux (s.dropWhile (fun d => !isPySpace d)) [] := by
  induction s with
  | nil =>
    intro acc h
    simp [splitAux, h]
  | cons c rest ih =>
    intro acc h
    by_cases hc : isPySpace c
    · simp [splitAux, hc, h, List.takeWhile_cons, List.dropWhile_cons]
    · rw [show splitAux (c :: rest) acc = splitAux rest (c :: acc) by
        simp [splitAux, hc]]
      rw [ih (c :: acc) (List.cons_ne_nil c acc)]
      simp [hc, List.takeWhile_cons, List.dropWhile_cons]

/-- The implementation's split agrees with the spec's description of
whitespace-run tokenization. -/
theorem pySplit_eq_specTokenize (s : List Char) :
    pySplit s = specTokenize s := by
  induction s using specTokenize.induct with
  | case1 => simp [pySplit, splitAux, specTokenize]
  | case2 c s hc ih =>
    have hL : pySplit (c :: s) = pySplit s := by
      simp [pySplit, splitAux, hc]
    have hR : specTokenize (c :: s) = specTokenize s := by
      simp [specTokenize, hc]
    rw [hL, hR, ih]
  | case3 c s hc ih =>
    have hL : pySplit (c :: s) = splitAux s [c] := by
      simp [pySplit, splitAux, hc]
    have hR : specTokenize (c :: s) =
        (c :: s.takeWhile (fun d => !isPySpace d)) ::
          specTokenize (s.dropWhile (fun d => !isPySpace d)) := by
      simp [specTokenize, hc]
    have h3 : splitAux (s.dropWhile (fun d => !isPySpace d)) [] =
        specTokenize (s.dropWhile (fun d => !isPySpace d)) := ih
    rw [hL, splitAux_acc_ne s [c] (by simp), hR, h3]
    simp

/-- Every token produced by the spec-level tokenizer is nonempty and
contains no whitespace character. -/
theorem specTokenize_tokens (s : List Char) :
    ∀ w ∈ specTokenize s, w ≠ [] ∧ ∀ c ∈ w, isPySpace c = false := by
  induction s using specTokenize.induct with
  | case1 => simp [specTokenize]
  | case2 c s hc ih =>
    simpa [specTokenize, hc] using ih
  | case3 c s hc ih =>
    intro w hw
    simp only [specTokenize] at hw
    rw [if_neg hc] at hw
    rcases List.mem_cons.mp hw with h | h
    · subst h
      refine ⟨List.cons_ne_nil _ _, ?_⟩
      intro d hd
      rcases List.mem_cons.mp hd with h | h
      · subst h
        simpa using hc
      · simpa using List.mem_takeWhile_imp h
    · exact ih w h

/-- Splitting an all-whitespace string yields no tokens. -/
theorem splitAux_all_space (s : List Char)
    (h : ∀ c ∈ s, isPySpace c = true) : splitAux s [] = [] := by
  induction s with
  | nil => rfl
  | cons c rest ih =>
    have hc : isPySpace c = true := h c (by simp)
    simp only [splitAux, hc, if_pos, if_true, List.nil_append]
    exact ih (fun d hd => h d (by simp [hd]))

/-- Character-level shape of a formatted output line. -/
theorem formatLine_data (w : String) :
    (formatLine w).data =
      '\t' :: '"' :: (w.data ++ '"' :: (".to_string(),").data) := by
  show (("\t\"" ++ w) ++ "\".to_string(),").data = _
  rw [String.data_append, String.data_append]
  simp [List.append_assoc]

/-- A successful run on two distinct, readable paths prints exactly
`outputLines` of the two contents and exits without error. -/
theorem run_success (a0 p1 p2 c1 c2 : String) (h : p1 ≠ p2) :
    run [a0, p1, p2] [(p1, c1), (p2, c2)] = (outputLines c1 c2, none) := by
  have hne : (p1 == p2) = false := beq_eq_false_iff_ne.mpr h
  simp [run, readFile, List.find?, List.get?, hne]

/-! ## Claim theorems -/

/-- Claim C1, counterexample: with a readable primary file (`"alpha beta"`)
and an unreadable secondary path, the run fails with an I/O error and its
standard output is empty — in particular the primary block's opening line
was never printed, refuting the claim that the primary block's output has
been written before the failure surfaces. -/
theorem c1_counterexample :
    run ["prog", "p", "s"] [("p", "alpha beta")] = ([], some RunError.ioError)
    ∧ "primary_keywords: vec![" ∉ (run ["prog", "p", "s"] [("p", "alpha beta")]).1 := by
  decide

/-- Claim C1, amended: if the secondary file fails to open while the
primary file was opened and read successfully, the program terminates with
an I/O error having printed nothing at all — both files are read before
any printing, so standard output is empty at the failure (and, vacuously,
whatever was already printed remains). -/
theorem c1_secondary_open_failure (argv : List String)
    (fs : List (String × String)) (p1 p2 c1 : String)
    (h1 : argv[1]? = some p1) (hr1 : readFile fs p1 = some c1)
    (h2 : argv[2]? = some p2) (hr2 : readFile fs p2 = none) :
    run argv fs = ([], some RunError.ioError) := by
  simp [run, h1, hr1, h2, hr2]

/-- Witness for the amended C1 at a concrete input. -/
theorem c1_secondary_open_failure_witness :
    run ["prog", "p", "s"] [("p", "x y")] = ([], some RunError.ioError) :=
  c1_secondary_open_failure ["prog", "p", "s"] [("p", "x y")] "p" "s" "x y"
    (by decide) (by decide) (by decide) (by decide)

/-- Claim C2: with primary contents `"alpha beta"` and secondary contents
`"gamma"` on two distinct paths, the program writes exactly the eight
listed lines, in order, and exits without error. -/
theorem c2_concrete_output (a0 p1 p2 : String) (h : p1 ≠ p2) :
    run [a0, p1, p2] [(p1, "alpha beta"), (p2, "gamma")] =
      (["primary_keywords: vec![",
        "\t\"alpha\".to_string(),",
        "\t\"beta\".to_string(),",
        "],",
        "secondary_keywords: vec![",
        "\t\"gamma\".to_string(),",
        "],",
        "You can now add the keywords to the src/filetype.rs folder."],
       none) := by
  rw [run_success a0 p1 p2 "alpha beta" "gamma" h]
  decide

/-- Witness for C2 at concrete paths. -/
theorem c2_concrete_output_witness :
    run ["prog", "p", "s"] [("p", "alpha beta"), ("s", "gamma")] =
      (["primary_keywords: vec![",
        "\t\"alpha\".to_string(),",
        "\t\"beta\".to_string(),",
        "],",
        "secondary_keywords: vec![",
        "\t\"gamma\".to_string(),",
        "],",
        "You can now add the keywords to the src/filetype.rs folder."],
       none) :=
  c2_concrete_output "prog" "p" "s" (by decide)

/-- Claim C3: for every token of either word list, the emitted line is
exactly tab, `"`, the token text, `"`, `.to_string(),` — and that line
occurs in the program's output. -/
theorem c3_line_shape (c1 c2 w : String)
    (h : w ∈ pySplitStr c1 ∨ w ∈ pySplitStr c2) :
    (formatLine w).data =
      '\t' :: '"' :: (w.data ++ '"' :: (".to_string(),").data)
    ∧ formatLine w ∈ outputLines c1 c2 := by
  refine ⟨formatLine_data w, ?_⟩
  rcases h with h | h
  · exact List.mem_append_left _ (List.mem_append_left _
      (List.mem_cons_of_mem _ (List.mem_append_left _ (List.mem_map_of_mem _ h))))
  · exact List.mem_append_left _ (List.mem_append_right _
      (List.mem_cons_of_mem _ (List.mem_append_left _ (List.mem_map_of_mem _ h))))

/-- Witness for C3: the token `alpha` of the primary list produces its
exact line, present in the output. -/
theorem c3_line_shape_witness :
    ("alpha" ∈ pySplitStr "alpha beta" ∨ "alpha" ∈ pySplitStr "gamma")
    ∧ ((formatLine "alpha").data =
        '\t' :: '"' :: ("alpha".data ++ '"' :: (".to_string(),").data)
      ∧ formatLine "alpha" ∈ outputLines "alpha beta" "gamma") :=
  ⟨Or.inl (by decide), c3_line_shape "alpha beta" "gamma" "alpha" (Or.inl (by decide))⟩

/-- Claim C4: tokenization splits the contents on runs of whitespace,
discarding empty tokens: the concrete file `a   b\tc\nd` yields
`[a, b, c, d]`, the implemented split coincides with the spec-level
run-of-whitespace tokenizer, and no produced token is empty. -/
theorem c4_tokenization :
    pySplitStr "a   b\tc\nd" = ["a", "b", "c", "d"]
    ∧ (∀ s : List Char, pySplit s = specTokenize s)
    ∧ (∀ s : List Char, ∀ w ∈ pySplit s, w ≠ []) := by
  refine ⟨by decide, pySplit_eq_specTokenize, ?_⟩
  intro s w hw
  rw [pySplit_eq_specTokenize] at hw
  exact (specTokenize_tokens s w hw).1

/-- Witness for C4: a concrete token produced by the split is nonempty. -/
theorem c4_tokenization_witness :
    (['a', 'b'] ∈ pySplit ("ab x".data)) ∧ ['a', 'b'] ≠ [] :=
  ⟨by decide, c4_tokenization.2.2 ("ab x".data) ['a', 'b'] (by decide)⟩

/-- Claim C5: for any two file contents on distinct paths, the output is
the primary marker line, one formatted line per primary token in file
order (duplicates preserved), the closing `],`, the secondary marker, one
formatted line per secondary token, the closing `],`, and the final
instructional line — with exactly as many per-word lines as tokens. -/
theorem c5_block_structure (a0 p1 p2 c1 c2 : String) (h : p1 ≠ p2) :
    (run [a0, p1, p2] [(p1, c1), (p2, c2)]).1 =
      "primary_keywords: vec![" ::
        ((pySplitStr c1).map formatLine ++
          "]," :: "secondary_keywords: vec![" ::
            ((pySplitStr c2).map formatLine ++ ["],", finalLine]))
    ∧ ((pySplitStr c1).map formatLine).length = (pySplitStr c1).length
    ∧ ((pySplitStr c2).map formatLine).length = (pySplitStr c2).length := by
  refine ⟨?_, by simp, by simp⟩
  rw [run_success a0 p1 p2 c1 c2 h]
  simp [outputLines, blockLines]

/-- Witness for C5 at a concrete input. -/
theorem c5_block_structure_witness :
    (run ["prog", "p", "s"] [("p", "a a"), ("s", "b")]).1 =
      "primary_keywords: vec![" ::
        ((pySplitStr "a a").map formatLine ++
          "]," :: "secondary_keywords: vec![" ::
            ((pySplitStr "b").map formatLine ++ ["],", finalLine]))
    ∧ ((pySplitStr "a a").map formatLine).length = (pySplitStr "a a").length
    ∧ ((pySplitStr "b").map formatLine).length = (pySplitStr "b").length :=
  c5_block_structure "prog" "p" "s" "a a" "b" (by decide)

/-- Claim C6: an empty or whitespace-only file contributes zero per-word
lines, but its block's opening marker and closing `],` are still
emitted. -/
theorem c6_empty_block (c : String)
    (h : ∀ ch ∈ c.data, isPySpace ch = true) :
    blockLines "primary_keywords: vec![" (pySplitStr c) =
      ["primary_keywords: vec![", "],"]
    ∧ blockLines "secondary_keywords: vec![" (pySplitStr c) =
      ["secondary_keywords: vec![", "],"] := by
  have hz : pySplit c.data = [] := splitAux_all_space c.data h
  simp [blockLines, pySplitStr, hz]

/-- Witness for C6 on a whitespace-only file. -/
theorem c6_empty_block_witness :
    (∀ ch ∈ (" \t\n".data), isPySpace ch = true)
    ∧ blockLines "primary_keywords: vec![" (pySplitStr " \t\n") =
        ["primary_keywords: vec![", "],"] :=
  ⟨by decide, (c6_empty_block " \t\n" (by decide)).1⟩

/-- Claim C7: invoked with only one path argument, the program prints no
output line and terminates with an error; when the single path is
readable, the error is the IndexError from accessing the missing second
argument. -/
theorem c7_missing_second_arg (a0 p1 : String) (fs : List (String × String)) :
    (run [a0, p1] fs).1 = []
    ∧ (run [a0, p1] fs).2.isSome = true
    ∧ (∀ c1, readFile fs p1 = some c1 →
        run [a0, p1] fs = ([], some RunError.indexError)) := by
  refine ⟨?_, ?_, ?_⟩
  · cases hr : readFile fs p1 with
    | none => simp [run, List.get?, hr]
    | some c => simp [run, List.get?, hr]
  · cases hr : readFile fs p1 with
    | none => simp [run, List.get?, hr]
    | some c => simp [run, List.get?, hr]
  · intro c1 hc
    simp [run, List.get?, hc]

/-- Witness for C7 at a concrete argument vector and filesystem. -/
theorem c7_missing_second_arg_witness :
    readFile [("p", "x")] "p" = some "x"
    ∧ run ["prog", "p"] [("p", "x")] = ([], some RunError.indexError) :=
  ⟨by decide,
    (c7_missing_second_arg "prog" "p" [("p", "x")]).2.2 "x" (by decide)⟩

/-- Claim C8: the output is determined by the two file contents alone —
runs with the same contents under different program names and paths
produce identical standard output. -/
theorem c8_deterministic (a0 a0' p1 p2 p1' p2' c1 c2 : String)
    (h : p1 ≠ p2) (h' : p1' ≠ p2') :
    (run [a0, p1, p2] [(p1, c1), (p2, c2)]).1 =
      (run [a0', p1', p2'] [(p1', c1), (p2', c2)]).1 := by
  rw [run_success a0 p1 p2 c1 c2 h, run_success a0' p1' p2' c1 c2 h']

/-- Witness for C8 at concrete inputs. -/
theorem c8_deterministic_witness :
    (run ["prog", "p", "s"] [("p", "a"), ("s", "b")]).1 =
      (run ["x", "q", "t"] [("q", "a"), ("t", "b")]).1 :=
  c8_deterministic "prog" "x" "p" "s" "q" "t" "a" "b" (by decide) (by decide)

/-- Claim C9: a token containing a double quote is emitted verbatim
between the surrounding quotes — no quote escaping and no backslash
insertion happens: the line is exactly tab, quote, token, quote,
`.to_string(),`, its quote count is the token's plus the two delimiters,
and its backslash count equals the token's. -/
theorem c9_no_escaping (w : String) (h : '"' ∈ w.data) :
    (formatLine w).data =
      '\t' :: '"' :: (w.data ++ '"' :: (".to_string(),").data)
    ∧ (formatLine w).data.count '"' = w.data.count '"' + 2
    ∧ (formatLine w).data.count '\\' = w.data.count '\\' := by
  refine ⟨formatLine_data w, ?_, ?_⟩
  · rw [formatLine_data w]
    simp [List.count_cons, List.count_append]
  · rw [formatLine_data w]
    simp [List.count_cons, List.count_append]

/-- Witness for C9 on the token `a"b`. -/
theorem c9_no_escaping_witness :
    ('"' ∈ ("a\"b").data)
    ∧ (formatLine "a\"b").data.count '"' = ("a\"b").data.count '"' + 2 :=
  ⟨by decide, (c9_no_escaping "a\"b" (by decide)).2.1⟩

/-- Claim C10: arguments beyond the first two paths are ignored — the
whole run (output and exit status) is unchanged under any replacement of
the trailing arguments. -/
theorem c10_extra_args_ignored (a0 p1 p2 : String)
    (extra extra' : List String) (fs : List (String × String)) :
    run (a0 :: p1 :: p2 :: extra) fs = run (a0 :: p1 :: p2 :: extra') fs :=
  rfl

end KeywordFormatter
